import Mathlib

/-!
Verification of the magicStatTraker UI statistics core.

This file gives a shallow embedding, in Lean 4, of the pure statistics
logic of the repository (delta building, delta merging and inversion,
result resolution, casual-format classification, favorite-deck
aggregation, win-percentage derivation, and the player/deck update
payload builders used on match creation and match deletion), and proves
or refutes the frozen claims about that logic.

Modelling conventions:
* JavaScript numbers are modelled as rationals (ℚ); all numbers the code
  manipulates here are finite, and NaN/Infinity corner values are out of
  the model (noted where relevant).
* Loosely-typed records (TypeScript Record of string to unknown) are
  modelled as association lists of string keys to a JsValue; an absent
  key plays the role of the JS undefined value.
* JS string operations (trim, toLowerCase, includes) are modelled over
  ASCII character lists, which covers every string the claims exercise.
* JS Map objects (which iterate in insertion order) are modelled as
  insertion-ordered association lists; updating an existing key keeps
  its position, inserting a new key appends.
-/

/-- A JavaScript runtime value as stored in a loosely-typed record.
The number carrier is ℚ (finite JS numbers). -/
inductive JsValue where
  | num (q : ℚ)
  | str (s : String)
  | bool (b : Bool)
  | null
deriving DecidableEq

/-- A loosely-typed record: association list from field name to value.
An absent key models the JS undefined. -/
abbrev JsRecord := List (String × JsValue)

/-- Field lookup: first binding of the key, none when absent (undefined). -/
def jsGet (rec : JsRecord) (k : String) : Option JsValue :=
  match rec with
  | [] => none
  | (k₀, v₀) :: rest => if k₀ = k then some v₀ else jsGet rest k

/-- The JS nullish-coalescing chain over a key list: the first key whose
value is present and not null wins (mirrors a ?? b ?? c over record
fields). -/
def jsCoalesce (rec : JsRecord) (keys : List String) : Option JsValue :=
  match keys with
  | [] => none
  | k :: rest =>
    match jsGet rec k with
    | some JsValue.null => jsCoalesce rec rest
    | some v => some v
    | none => jsCoalesce rec rest

/-- JS truthiness of a value: numbers are falsy iff 0, strings iff empty,
booleans are themselves, null is falsy. -/
def jsTruthy : JsValue → Bool
  | JsValue.num q => decide (q ≠ 0)
  | JsValue.str s => decide (s ≠ "")
  | JsValue.bool b => b
  | JsValue.null => false

/-- ASCII lower-casing of one character (models String.prototype.toLowerCase
on the ASCII inputs the code sees). -/
def lowerChar (c : Char) : Char :=
  if 'A' ≤ c ∧ c ≤ 'Z' then Char.ofNat (c.toNat + 32) else c

/-- ASCII lower-casing of a string. -/
def asciiLower (s : String) : String :=
  ⟨s.data.map lowerChar⟩

/-- JS whitespace test restricted to the common ASCII whitespace. -/
def jsWhite (c : Char) : Bool :=
  c = ' ' ∨ c = '\t' ∨ c = '\n' ∨ c = '\r'

/-- Models String.prototype.trim over ASCII whitespace. -/
def trimJs (s : String) : String :=
  ⟨((s.data.dropWhile jsWhite).reverse.dropWhile jsWhite).reverse⟩

/-- Does the character list start with the given needle? -/
def charsStart : List Char → List Char → Bool
  | [], _ => true
  | _ :: _, [] => false
  | a :: as, b :: bs => a = b && charsStart as bs

/-- Does the character list contain the needle as a contiguous run? -/
def charsHas (needle : List Char) : List Char → Bool
  | [] => needle.isEmpty
  | c :: rest => charsStart needle (c :: rest) || charsHas needle rest

/-- Models String.prototype.includes: does hay contain needle? -/
def strHas (hay needle : String) : Bool :=
  charsHas needle.data hay.data

/-- Decimal-integer parse of a string after trimming, with optional
leading minus sign.  Models the JS Number(string) coercion on the
decimal-integer strings this code base stores in numeric fields; other
numeric syntaxes (floats, hex, exponents) are outside the model. -/
def parseNumber (s : String) : Option ℚ :=
  let t := (trimJs s).data
  let core : List Char → Option ℚ := fun ds =>
    if ds = [] ∨ ¬ ds.all Char.isDigit then none
    else some ((ds.foldl (fun a c => a * 10 + (c.toNat - 48)) 0 : ℕ) : ℚ)
  match t with
  | '-' :: rest => (core rest).map (fun q => -q)
  | _ => core t

/-- Insertion-ordered association-list read (JS Map.get). -/
def alistGet {α β : Type} [DecidableEq α] (l : List (α × β)) (k : α) : Option β :=
  match l with
  | [] => none
  | (k₀, v₀) :: rest => if k₀ = k then some v₀ else alistGet rest k

/-- Insertion-ordered association-list write (JS Map.set): an existing
key keeps its position, a new key is appended. -/
def alistSet {α β : Type} [DecidableEq α] (l : List (α × β)) (k : α) (v : β) :
    List (α × β) :=
  match l with
  | [] => [(k, v)]
  | (k₀, v₀) :: rest =>
    if k₀ = k then (k₀, v) :: rest else (k₀, v₀) :: alistSet rest k v

/-- Rendering of a JsValue as the JS String(value) coercion.  Integral
numbers render as their decimal form; non-integral rationals are
rendered as num/den (a deviation from JS decimal printing, never hit by
the records in scope). -/
def jsDisplayString : JsValue → String
  | JsValue.str s => s
  | JsValue.bool true => "true"
  | JsValue.bool false => "false"
  | JsValue.null => "null"
  | JsValue.num q => if q.den = 1 then toString q.num else toString q

/-- coerceNumber from the source (identical private copies live in
MatchHistoryComponent, CreateGameComponent, PlayersComponent and
DecksComponent): walk the prioritized key list, return the first value
that is a (finite) number, or a non-blank string that parses as a
number; otherwise 0. -/
def coerceNumber (rec : JsRecord) (keys : List String) : ℚ :=
  match keys with
  | [] => 0
  | k :: rest =>
    match jsGet rec k with
    | some (JsValue.num q) => q
    | some (JsValue.str s) =>
      if trimJs s ≠ "" then
        match parseNumber s with
        | some q => q
        | none => coerceNumber rec rest
      else coerceNumber rec rest
    | _ => coerceNumber rec rest

/-- StatDelta from the source: the five signed counter adjustments. -/
structure StatDelta where
  wins : ℚ
  losses : ℚ
  ties : ℚ
  casualWins : ℚ
  casualLosses : ℚ
deriving DecidableEq

/-- The all-zero delta. -/
def zeroDelta : StatDelta :=
  { wins := 0, losses := 0, ties := 0, casualWins := 0, casualLosses := 0 }

/-- mergeDelta from the source (identical copies in MatchHistoryComponent
and CreateGameComponent): component-wise sum. -/
def mergeDelta (base add : StatDelta) : StatDelta :=
  { wins := base.wins + add.wins
    losses := base.losses + add.losses
    ties := base.ties + add.ties
    casualWins := base.casualWins + add.casualWins
    casualLosses := base.casualLosses + add.casualLosses }

/-- invertDelta from MatchHistoryComponent: component-wise negation. -/
def invertDelta (delta : StatDelta) : StatDelta :=
  { wins := -delta.wins
    losses := -delta.losses
    ties := -delta.ties
    casualWins := -delta.casualWins
    casualLosses := -delta.casualLosses }

/-- The three-valued ResultType of match.service.ts. -/
inductive ResultType where
  | win
  | loss
  | tie
deriving DecidableEq

/-- buildDelta from MatchHistoryComponent (match.service.ts lines
972-996): start from the zero delta; a tie sets ties to 1; a win sets
wins to 1 and, when casual, casualWins to 1; a loss sets losses to 1
and, when casual, casualLosses to 1. -/
def MatchHistory.buildDelta (result : ResultType) (isCasual : Bool) : StatDelta :=
  match result with
  | ResultType.tie => { zeroDelta with ties := 1 }
  | ResultType.win =>
    if isCasual then { zeroDelta with wins := 1, casualWins := 1 }
    else { zeroDelta with wins := 1 }
  | ResultType.loss =>
    if isCasual then { zeroDelta with losses := 1, casualLosses := 1 }
    else { zeroDelta with losses := 1 }

/-- The four-valued ResultType of decks.component.ts (CreateGameComponent):
win, loss, tie, or the empty-string unselected state. -/
inductive CGResult where
  | win
  | loss
  | tie
  | empty
deriving DecidableEq

/-- buildDelta from CreateGameComponent (decks.component.ts lines
787-809): same behaviour as the MatchHistoryComponent copy, and the
empty result yields the zero delta. -/
def CreateGame.buildDelta (result : CGResult) (isCasual : Bool) : StatDelta :=
  match result with
  | CGResult.tie => { zeroDelta with ties := 1 }
  | CGResult.win =>
    if isCasual then { zeroDelta with wins := 1, casualWins := 1 }
    else { zeroDelta with wins := 1 }
  | CGResult.loss =>
    if isCasual then { zeroDelta with losses := 1, casualLosses := 1 }
    else { zeroDelta with losses := 1 }
  | CGResult.empty => zeroDelta

/-- buildLossDelta from CreateGameComponent (decks.component.ts lines
811-820): only a loss contributes; it sets losses to 1 and, when
casual, casualLosses to 1; every other result yields the zero delta. -/
def CreateGame.buildLossDelta (result : CGResult) (isCasual : Bool) : StatDelta :=
  match result with
  | CGResult.loss =>
    if isCasual then { zeroDelta with losses := 1, casualLosses := 1 }
    else { zeroDelta with losses := 1 }
  | _ => zeroDelta

/-- C5: for every result in win/loss/tie and every casual flag,
buildDelta sets exactly one of wins/losses/ties to 1 and the others to
0; casualWins is 1 iff the result is a win and the match is casual,
casualLosses is 1 iff the result is a loss and the match is casual; the
function is total by construction. -/
theorem c5_buildDelta_exactly_one (r : ResultType) (c : Bool) :
    (MatchHistory.buildDelta r c).wins = (if r = ResultType.win then 1 else 0)
    ∧ (MatchHistory.buildDelta r c).losses = (if r = ResultType.loss then 1 else 0)
    ∧ (MatchHistory.buildDelta r c).ties = (if r = ResultType.tie then 1 else 0)
    ∧ (MatchHistory.buildDelta r c).casualWins
        = (if r = ResultType.win ∧ c = true then 1 else 0)
    ∧ (MatchHistory.buildDelta r c).casualLosses
        = (if r = ResultType.loss ∧ c = true then 1 else 0)
    ∧ (MatchHistory.buildDelta r c).wins + (MatchHistory.buildDelta r c).losses
        + (MatchHistory.buildDelta r c).ties = 1 := by
  cases r <;> cases c <;> simp [MatchHistory.buildDelta, zeroDelta]

/-- C8: delta merging is commutative and associative, so accumulation
order per identity never affects the merged result. -/
theorem c8_merge_comm_assoc (a b c : StatDelta) :
    mergeDelta a b = mergeDelta b a
    ∧ mergeDelta (mergeDelta a b) c = mergeDelta a (mergeDelta b c) := by
  cases a
  cases b
  cases c
  refine ⟨?_, ?_⟩ <;>
    simp only [mergeDelta, StatDelta.mk.injEq] <;>
    refine ⟨?_, ?_, ?_, ?_, ?_⟩ <;> ring

/-- C9: merging a delta with its inversion yields the zero delta in all
five components. -/
theorem c9_merge_invert_zero (a : StatDelta) :
    mergeDelta a (invertDelta a) = zeroDelta := by
  cases a
  simp only [mergeDelta, invertDelta, zeroDelta, StatDelta.mk.injEq]
  refine ⟨?_, ?_, ?_, ?_, ?_⟩ <;> ring

/-- The prioritized key lists the payload builders read stored counters
through (identical in MatchHistoryComponent and CreateGameComponent). -/
def payloadWinKeys : List String := ["wins", "Wins", "winCount", "totalWins", "win_total"]

/-- Keys for stored losses in the payload builders. -/
def payloadLossKeys : List String := ["losses", "Losses", "lossCount", "totalLosses", "loss_total"]

/-- Keys for stored ties in the payload builders. -/
def payloadTieKeys : List String := ["ties", "Ties", "tieCount", "totalTies"]

/-- Keys for stored casual wins in the payload builders. -/
def payloadCasualWinKeys : List String := ["casualWins", "CasualWins"]

/-- Keys for stored casual losses in the payload builders. -/
def payloadCasualLossKeys : List String := ["casualLosses", "CasualLosses"]

/-- Keys for the display name read by the player payload builders. -/
def payloadNameKeys : List String := ["playerName", "PlayerName", "name", "username"]

/-- Keys for the owning player id read by the deck payload builders. -/
def payloadOwnerKeys : List String := ["playerID", "PlayerID", "playerId", "ownerId"]

/-- The canonical player update payload shape written back to the store. -/
structure PlayerPayload where
  playerId : ℚ
  playerName : String
  wins : ℚ
  losses : ℚ
  ties : ℚ
  casualWins : ℚ
  casualLosses : ℚ
deriving DecidableEq

/-- The canonical deck update payload shape written back to the store. -/
structure DeckPayload where
  deckName : String
  playerID : ℚ
  wins : ℚ
  losses : ℚ
  ties : ℚ
  casualWins : ℚ
  casualLosses : ℚ
deriving DecidableEq

/-- The display-name fallback used by the player payload builders:
the coalesced name field rendered as a string, else the word Unknown. -/
def payloadPlayerName (player : JsRecord) : String :=
  match jsCoalesce player payloadNameKeys with
  | some v => jsDisplayString v
  | none => "Unknown"

/-- The owner-id coercion of the deck payload builders: a number is kept,
anything else goes through the Number coercion with a fallback of 0
(the JS expression Number(ownerId) or-else 0). -/
def payloadOwnerId (deck : JsRecord) : ℚ :=
  match (jsCoalesce deck payloadOwnerKeys).getD (JsValue.num 0) with
  | JsValue.num q => q
  | JsValue.str s => (parseNumber s).getD 0
  | JsValue.bool b => if b then 1 else 0
  | JsValue.null => 0

/-- buildPlayerUpdatePayload from MatchHistoryComponent (match.service.ts
lines 1054-1074), the rollback path: each counter is the stored counter
(read through the prioritized key list) plus the delta component,
clamped below at 0 via Math.max. -/
def MatchHistory.buildPlayerUpdatePayload (player : JsRecord) (playerId : ℚ)
    (delta : StatDelta) : PlayerPayload :=
  { playerId := playerId
    playerName := payloadPlayerName player
    wins := max 0 (coerceNumber player payloadWinKeys + delta.wins)
    losses := max 0 (coerceNumber player payloadLossKeys + delta.losses)
    ties := max 0 (coerceNumber player payloadTieKeys + delta.ties)
    casualWins := max 0 (coerceNumber player payloadCasualWinKeys + delta.casualWins)
    casualLosses := max 0 (coerceNumber player payloadCasualLossKeys + delta.casualLosses) }

/-- buildDeckUpdatePayload from MatchHistoryComponent (match.service.ts
lines 1076-1095), the rollback path: same clamped arithmetic for decks. -/
def MatchHistory.buildDeckUpdatePayload (deck : JsRecord) (deckName : String)
    (delta : StatDelta) : DeckPayload :=
  { deckName := deckName
    playerID := payloadOwnerId deck
    wins := max 0 (coerceNumber deck payloadWinKeys + delta.wins)
    losses := max 0 (coerceNumber deck payloadLossKeys + delta.losses)
    ties := max 0 (coerceNumber deck payloadTieKeys + delta.ties)
    casualWins := max 0 (coerceNumber deck payloadCasualWinKeys + delta.casualWins)
    casualLosses := max 0 (coerceNumber deck payloadCasualLossKeys + delta.casualLosses) }

/-- buildPlayerUpdatePayload from CreateGameComponent (decks.component.ts
lines 832-852), the apply path: each counter is the stored counter plus
the delta component, with no clamping. -/
def CreateGame.buildPlayerUpdatePayload (player : JsRecord) (playerId : ℚ)
    (delta : StatDelta) : PlayerPayload :=
  { playerId := playerId
    playerName := payloadPlayerName player
    wins := coerceNumber player payloadWinKeys + delta.wins
    losses := coerceNumber player payloadLossKeys + delta.losses
    ties := coerceNumber player payloadTieKeys + delta.ties
    casualWins := coerceNumber player payloadCasualWinKeys + delta.casualWins
    casualLosses := coerceNumber player payloadCasualLossKeys + delta.casualLosses }

/-- buildDeckUpdatePayload from CreateGameComponent (decks.component.ts
lines 854-874), the apply path: unclamped counter arithmetic for decks. -/
def CreateGame.buildDeckUpdatePayload (deck : JsRecord) (deckName : String)
    (delta : StatDelta) : DeckPayload :=
  { deckName := deckName
    playerID := payloadOwnerId deck
    wins := coerceNumber deck payloadWinKeys + delta.wins
    losses := coerceNumber deck payloadLossKeys + delta.losses
    ties := coerceNumber deck payloadTieKeys + delta.ties
    casualWins := coerceNumber deck payloadCasualWinKeys + delta.casualWins
    casualLosses := coerceNumber deck payloadCasualLossKeys + delta.casualLosses }

/-- C2: on rollback, for every stored player and deck record and every
delta, each of the five payload counters equals max(0, stored + delta),
and is therefore never negative. -/
theorem c2_rollback_clamped (player deck : JsRecord) (pid : ℚ) (dn : String)
    (d : StatDelta) :
    (MatchHistory.buildPlayerUpdatePayload player pid d).wins
        = max 0 (coerceNumber player payloadWinKeys + d.wins)
    ∧ (MatchHistory.buildPlayerUpdatePayload player pid d).losses
        = max 0 (coerceNumber player payloadLossKeys + d.losses)
    ∧ (MatchHistory.buildPlayerUpdatePayload player pid d).ties
        = max 0 (coerceNumber player payloadTieKeys + d.ties)
    ∧ (MatchHistory.buildPlayerUpdatePayload player pid d).casualWins
        = max 0 (coerceNumber player payloadCasualWinKeys + d.casualWins)
    ∧ (MatchHistory.buildPlayerUpdatePayload player pid d).casualLosses
        = max 0 (coerceNumber player payloadCasualLossKeys + d.casualLosses)
    ∧ (MatchHistory.buildDeckUpdatePayload deck dn d).wins
        = max 0 (coerceNumber deck payloadWinKeys + d.wins)
    ∧ (MatchHistory.buildDeckUpdatePayload deck dn d).losses
        = max 0 (coerceNumber deck payloadLossKeys + d.losses)
    ∧ (MatchHistory.buildDeckUpdatePayload deck dn d).ties
        = max 0 (coerceNumber deck payloadTieKeys + d.ties)
    ∧ (MatchHistory.buildDeckUpdatePayload deck dn d).casualWins
        = max 0 (coerceNumber deck payloadCasualWinKeys + d.casualWins)
    ∧ (MatchHistory.buildDeckUpdatePayload deck dn d).casualLosses
        = max 0 (coerceNumber deck payloadCasualLossKeys + d.casualLosses)
    ∧ 0 ≤ (MatchHistory.buildPlayerUpdatePayload player pid d).wins
    ∧ 0 ≤ (MatchHistory.buildPlayerUpdatePayload player pid d).losses
    ∧ 0 ≤ (MatchHistory.buildPlayerUpdatePayload player pid d).ties
    ∧ 0 ≤ (MatchHistory.buildPlayerUpdatePayload player pid d).casualWins
    ∧ 0 ≤ (MatchHistory.buildPlayerUpdatePayload player pid d).casualLosses
    ∧ 0 ≤ (MatchHistory.buildDeckUpdatePayload deck dn d).wins
    ∧ 0 ≤ (MatchHistory.buildDeckUpdatePayload deck dn d).losses
    ∧ 0 ≤ (MatchHistory.buildDeckUpdatePayload deck dn d).ties
    ∧ 0 ≤ (MatchHistory.buildDeckUpdatePayload deck dn d).casualWins
    ∧ 0 ≤ (MatchHistory.buildDeckUpdatePayload deck dn d).casualLosses := by
  refine ⟨rfl, rfl, rfl, rfl, rfl, rfl, rfl, rfl, rfl, rfl,
    ?_, ?_, ?_, ?_, ?_, ?_, ?_, ?_, ?_, ?_⟩ <;>
    exact le_max_left 0 _

/-- C1 counterexample: the apply-path player payload builder does not
clamp at 0.  With a stored wins counter of -1 and a zero delta, the
payload carries -1, while max(0, stored + delta) would be 0. -/
theorem c1_counterexample :
    (CreateGame.buildPlayerUpdatePayload [("wins", JsValue.num (-1))] 1 zeroDelta).wins
        = -1
    ∧ (CreateGame.buildPlayerUpdatePayload [("wins", JsValue.num (-1))] 1 zeroDelta).wins
        ≠ max 0 (coerceNumber [("wins", JsValue.num (-1))] payloadWinKeys
            + zeroDelta.wins) := by
  constructor
  · simp [CreateGame.buildPlayerUpdatePayload, coerceNumber, jsGet,
      payloadWinKeys, zeroDelta]
  · simp [CreateGame.buildPlayerUpdatePayload, coerceNumber, jsGet,
      payloadWinKeys, zeroDelta]

/-- C1 (amended): on apply, for every stored player and deck record and
every accumulated delta, each of the five payload counters equals the
stored counter plus the delta component, with no clamping at 0. -/
theorem c1_apply_payload_unclamped (player deck : JsRecord) (pid : ℚ)
    (dn : String) (d : StatDelta) :
    (CreateGame.buildPlayerUpdatePayload player pid d).wins
        = coerceNumber player payloadWinKeys + d.wins
    ∧ (CreateGame.buildPlayerUpdatePayload player pid d).losses
        = coerceNumber player payloadLossKeys + d.losses
    ∧ (CreateGame.buildPlayerUpdatePayload player pid d).ties
        = coerceNumber player payloadTieKeys + d.ties
    ∧ (CreateGame.buildPlayerUpdatePayload player pid d).casualWins
        = coerceNumber player payloadCasualWinKeys + d.casualWins
    ∧ (CreateGame.buildPlayerUpdatePayload player pid d).casualLosses
        = coerceNumber player payloadCasualLossKeys + d.casualLosses
    ∧ (CreateGame.buildDeckUpdatePayload deck dn d).wins
        = coerceNumber deck payloadWinKeys + d.wins
    ∧ (CreateGame.buildDeckUpdatePayload deck dn d).losses
        = coerceNumber deck payloadLossKeys + d.losses
    ∧ (CreateGame.buildDeckUpdatePayload deck dn d).ties
        = coerceNumber deck payloadTieKeys + d.ties
    ∧ (CreateGame.buildDeckUpdatePayload deck dn d).casualWins
        = coerceNumber deck payloadCasualWinKeys + d.casualWins
    ∧ (CreateGame.buildDeckUpdatePayload deck dn d).casualLosses
        = coerceNumber deck payloadCasualLossKeys + d.casualLosses :=
  ⟨rfl, rfl, rfl, rfl, rfl, rfl, rfl, rfl, rfl, rfl⟩

/-- A CreateGameComponent game slot: optional indices into the loaded
player and deck arrays plus the selected result. -/
structure GameSlot where
  playerIndex : Option ℕ
  deckIndex : Option ℕ
  result : CGResult

/-- getPlayerId from CreateGameComponent (decks.component.ts lines
700-716): a missing player yields undefined; otherwise the coalesced
playerID/playerId/id field is accepted when it is a number, or a
non-blank numeric string. -/
def CreateGame.getPlayerId (player : Option JsRecord) : Option ℚ :=
  match player with
  | none => none
  | some rec =>
    match jsCoalesce rec ["playerID", "playerId", "id"] with
    | some (JsValue.num q) => some q
    | some (JsValue.str s) => if trimJs s ≠ "" then parseNumber s else none
    | _ => none

/-- getDeckNameForUpdate from CreateGameComponent (decks.component.ts
lines 876-881): the coalesced DeckName/deckName/name/title field,
rendered as a string when truthy, else null.  The Option argument
covers the out-of-range array access, which the UI never produces. -/
def CreateGame.getDeckNameForUpdate (deck : Option JsRecord) : Option String :=
  match deck with
  | none => none
  | some rec =>
    match jsCoalesce rec ["DeckName", "deckName", "name", "title"] with
    | some v => if jsTruthy v then some (jsDisplayString v) else none
    | none => none

/-- The pure delta-accumulation phase of updateStatsForMatch from
CreateGameComponent (decks.component.ts lines 718-746): walk the slots;
each slot contributes buildDelta to the per-player-id map and
buildLossDelta to the per-deck-name map, merging into any existing
entry.  Slots without a resolvable player id or deck name are skipped
for the corresponding map. -/
def CreateGame.updateStatsDeltaMaps (slots : List GameSlot)
    (players decks : List JsRecord) (isCasual : Bool) :
    List (ℚ × StatDelta) × List (String × StatDelta) :=
  slots.foldl (fun maps slot =>
    let delta := CreateGame.buildDelta slot.result isCasual
    let deckDelta := CreateGame.buildLossDelta slot.result isCasual
    let pm :=
      match slot.playerIndex with
      | some i =>
        match CreateGame.getPlayerId (players.get? i) with
        | some pid =>
          match alistGet maps.1 pid with
          | some existing => alistSet maps.1 pid (mergeDelta existing delta)
          | none => alistSet maps.1 pid delta
        | none => maps.1
      | none => maps.1
    let dm :=
      match slot.deckIndex with
      | some i =>
        match CreateGame.getDeckNameForUpdate (decks.get? i) with
        | some dn =>
          match alistGet maps.2 dn with
          | some existing => alistSet maps.2 dn (mergeDelta existing deckDelta)
          | none => alistSet maps.2 dn deckDelta
        | none => maps.2
      | none => maps.2
    (pm, dm)) ([], [])

/-- C3 counterexample: for a competitive match with one seat (player id
1 playing deck Rona, result win), the delta accumulated under the deck
name is the zero delta produced by buildLossDelta, while the delta
accumulated under the player identity records the win — so decks do not
receive the full resolved delta. -/
theorem c3_counterexample :
    alistGet (CreateGame.updateStatsDeltaMaps
        [{ playerIndex := some 0, deckIndex := some 0, result := CGResult.win }]
        [[("playerID", JsValue.num 1)]] [[("deckName", JsValue.str ("Rona"))]]
        false).2 ("Rona")
      = some (CreateGame.buildLossDelta CGResult.win false)
    ∧ alistGet (CreateGame.updateStatsDeltaMaps
        [{ playerIndex := some 0, deckIndex := some 0, result := CGResult.win }]
        [[("playerID", JsValue.num 1)]] [[("deckName", JsValue.str ("Rona"))]]
        false).1 1
      = some (CreateGame.buildDelta CGResult.win false)
    ∧ CreateGame.buildLossDelta CGResult.win false
        ≠ CreateGame.buildDelta CGResult.win false := by
  refine ⟨rfl, rfl, ?_⟩
  norm_num [CreateGame.buildLossDelta, CreateGame.buildDelta, zeroDelta]

/-- C3 (amended): the per-deck delta built on apply is buildLossDelta,
which keeps only the losses and casualLosses components of the full
resolved delta and zeroes wins, ties and casualWins; it coincides with
the full delta exactly when the seat result is a loss. -/
theorem c3_deck_delta_loss_only (r : CGResult) (c : Bool) :
    CreateGame.buildLossDelta r c
      = { zeroDelta with
            losses := (CreateGame.buildDelta r c).losses
            casualLosses := (CreateGame.buildDelta r c).casualLosses }
    ∧ (r = CGResult.loss →
        CreateGame.buildLossDelta r c = CreateGame.buildDelta r c) := by
  cases r <;> cases c <;>
    simp [CreateGame.buildLossDelta, CreateGame.buildDelta, zeroDelta]

/-- Witness for C3 (amended) at the loss result, where the deck delta
does agree with the full resolved delta. -/
theorem c3_deck_delta_loss_only_witness :
    CreateGame.buildLossDelta CGResult.loss true
      = CreateGame.buildDelta CGResult.loss true :=
  (c3_deck_delta_loss_only CGResult.loss true).2 rfl

/-- isCasualFormat from MatchHistoryComponent (match.service.ts lines
965-970): an absent or empty format is not casual; otherwise the
lower-cased format is checked for the substring casual. -/
def isCasualFormat (value : Option String) : Bool :=
  match value with
  | none => false
  | some s => if s = "" then false else strHas (asciiLower s) ("casual")

/-- C7: a format string is classified casual iff its lower-casing
contains the substring casual anywhere; an absent or empty format (and
in particular cEDH) is competitive, and Casual-EDH is casual. -/
theorem c7_casual_format (s : String) :
    isCasualFormat (some s) = strHas (asciiLower s) ("casual")
    ∧ isCasualFormat none = false
    ∧ isCasualFormat (some ("Casual-EDH")) = true
    ∧ isCasualFormat (some ("cEDH")) = false
    ∧ isCasualFormat (some ("")) = false := by
  refine ⟨?_, rfl, by decide, by decide, rfl⟩
  by_cases h : s = ""
  · subst h
    decide
  · simp [isCasualFormat, h]

/-- The key list for stored wins used by the getWins helpers of
PlayersComponent and DecksComponent (identical copies). -/
def statWinKeys : List String := ["wins", "winCount", "totalWins", "win_total"]

/-- The key list for stored losses used by the getLosses helpers. -/
def statLossKeys : List String := ["losses", "lossCount", "totalLosses", "loss_total"]

/-- The key list of the direct win-percentage lookup. -/
def directPctKeys : List String := ["winPercentage", "winPct", "win_percent"]

/-- getWins from PlayersComponent / DecksComponent. -/
def getWins (rec : JsRecord) : ℚ :=
  coerceNumber rec statWinKeys

/-- getLosses from PlayersComponent / DecksComponent. -/
def getLosses (rec : JsRecord) : ℚ :=
  coerceNumber rec statLossKeys

/-- The direct win-percentage field: the nullish-coalesced
winPercentage/winPct/win_percent value when it is a (finite) number. -/
def directPct (rec : JsRecord) : Option ℚ :=
  match jsCoalesce rec directPctKeys with
  | some (JsValue.num q) => some q
  | _ => none

/-- getWinPercentageValue from PlayersComponent (match.service.ts lines
464-479) and DecksComponent (decks.component.ts lines 266-281),
identical copies: return the direct numeric win-percentage field when
present; otherwise wins/(wins+losses)*100, with 0 returned when the
total is 0 (the falsy-total guard). -/
def getWinPercentageValue (rec : JsRecord) : ℚ :=
  match directPct rec with
  | some q => q
  | none =>
    let wins := getWins rec
    let losses := getLosses rec
    let total := wins + losses
    if total = 0 then 0 else wins / total * 100

/-- C10: the derived win-percentage view is total and guarded against
division by zero: on a record with no direct numeric win-percentage
field, it returns 0 whenever both resolved counters are 0 (more
generally whenever their sum is 0), and wins/(wins+losses)*100 whenever
the sum is nonzero. -/
theorem c10_win_percentage_guarded (rec : JsRecord) :
    (directPct rec = none → getWins rec = 0 → getLosses rec = 0 →
        getWinPercentageValue rec = 0)
    ∧ (directPct rec = none → getWins rec + getLosses rec ≠ 0 →
        getWinPercentageValue rec
          = getWins rec / (getWins rec + getLosses rec) * 100) := by
  constructor
  · intro h h1 h2
    simp [getWinPercentageValue, h, h1, h2]
  · intro h h2
    simp [getWinPercentageValue, h, h2]

/-- Witness for C10: the empty record yields 0, and a record with 3
wins and 1 loss yields 75. -/
theorem c10_win_percentage_guarded_witness :
    getWinPercentageValue [] = 0
    ∧ getWinPercentageValue [("wins", JsValue.num 3), ("losses", JsValue.num 1)] = 75 := by
  constructor
  · exact (c10_win_percentage_guarded []).1 rfl rfl rfl
  · have hw : getWins [("wins", JsValue.num 3), ("losses", JsValue.num 1)] = 3 := rfl
    have hl : getLosses [("wins", JsValue.num 3), ("losses", JsValue.num 1)] = 1 := rfl
    have h := (c10_win_percentage_guarded
        [("wins", JsValue.num 3), ("losses", JsValue.num 1)]).2 rfl
        (by rw [hw, hl]; norm_num)
    rw [h, hw, hl]
    norm_num

/-- The result-like seat fields probed by resolveSeatResult. -/
def resultFieldKeys : List String :=
  ["result", "Result", "outcome", "outcomeType", "resultType", "status"]

/-- The boolean tie-flag seat fields. -/
def tieFlagKeys : List String := ["tie", "isTie"]

/-- The boolean win-flag seat fields. -/
def winFlagKeys : List String := ["playerWin", "isWinner", "winner", "won", "win"]

/-- The seat fields naming the seat player. -/
def seatNameKeys : List String := ["playerName", "name", "username", "player"]

/-- readSeatField from MatchHistoryComponent (match.service.ts lines
848-856): the first key whose value is a non-blank string, returned
untrimmed. -/
def readSeatField (seat : JsRecord) (keys : List String) : Option String :=
  match keys with
  | [] => none
  | k :: rest =>
    match jsGet seat k with
    | some (JsValue.str s) =>
      if trimJs s ≠ "" then some s else readSeatField seat rest
    | _ => readSeatField seat rest

/-- readSeatBool from MatchHistoryComponent (match.service.ts lines
858-882): the first key holding a boolean, a non-blank string whose
lower-casing is the word true or false, or the number 1 or 0; other
values fall through to the next key. -/
def readSeatBool (seat : JsRecord) (keys : List String) : Option Bool :=
  match keys with
  | [] => none
  | k :: rest =>
    match jsGet seat k with
    | some (JsValue.bool b) => some b
    | some (JsValue.str s) =>
      if trimJs s ≠ "" then
        if asciiLower s = "true" then some true
        else if asciiLower s = "false" then some false
        else readSeatBool seat rest
      else readSeatBool seat rest
    | some (JsValue.num q) =>
      if q = 1 then some true
      else if q = 0 then some false
      else readSeatBool seat rest
    | _ => readSeatBool seat rest

/-- normalizeResult from MatchHistoryComponent (match.service.ts lines
884-903): a falsy value yields null; otherwise the lower-cased string is
probed for the substrings tie, then win, then loss. -/
def normalizeResult (value : Option String) : Option ResultType :=
  match value with
  | none => none
  | some v =>
    if v = "" then none
    else
      if strHas (asciiLower v) ("tie") then some ResultType.tie
      else if strHas (asciiLower v) ("win") then some ResultType.win
      else if strHas (asciiLower v) ("loss") then some ResultType.loss
      else none

/-- getSeatPlayerId from MatchHistoryComponent (match.service.ts lines
806-822): the coalesced playerID/playerId/player_id/id field, accepted
as a number or a non-blank numeric string. -/
def getSeatPlayerId (seat : JsRecord) : Option ℚ :=
  match jsCoalesce seat ["playerID", "playerId", "player_id", "id"] with
  | some (JsValue.num q) => some q
  | some (JsValue.str s) => if trimJs s ≠ "" then parseNumber s else none
  | _ => none

/-- The match-level fields resolveSeatResult consults. -/
structure MatchRec where
  result : Option String
  playerID : Option ℚ
  playerWin : Option Bool
  winnerName : Option String

/-- The final winner-name fallback of resolveSeatResult (match.service.ts
lines 935-943), reached when every earlier rule fell through: when the
seat has a player-name field and the match a truthy winner name, a
case-insensitive trimmed match resolves win, and otherwise a match-level
win result resolves loss; in all other cases null. -/
def MatchHistory.seatNameRule (seat : JsRecord) (m : MatchRec)
    (matchResult : Option ResultType) : Option ResultType :=
  match readSeatField seat seatNameKeys, m.winnerName with
  | some sn, some wn =>
    if wn = "" then none
    else if asciiLower (trimJs sn) = asciiLower (trimJs wn) then some ResultType.win
    else if matchResult = some ResultType.win then some ResultType.loss
    else none
  | _, _ => none

/-- resolveSeatResult from MatchHistoryComponent (match.service.ts lines
905-946), the prioritized fallback chain: explicit result-like string
field; boolean tie flag; boolean win flag (false meaning loss);
match-level tie; the match-level boolean win flag when the seat is the
primary player; and last the winner-name comparison. -/
def MatchHistory.resolveSeatResult (seat : JsRecord) (m : MatchRec) :
    Option ResultType :=
  match normalizeResult (readSeatField seat resultFieldKeys) with
  | some r => some r
  | none =>
    if readSeatBool seat tieFlagKeys = some true then some ResultType.tie
    else
      match readSeatBool seat winFlagKeys with
      | some b => some (if b then ResultType.win else ResultType.loss)
      | none =>
        if normalizeResult m.result = some ResultType.tie then some ResultType.tie
        else
          match getSeatPlayerId seat, m.playerID, m.playerWin with
          | some sid, some pid, some b =>
            if sid = pid then some (if b then ResultType.win else ResultType.loss)
            else MatchHistory.seatNameRule seat m (normalizeResult m.result)
          | _, _, _ => MatchHistory.seatNameRule seat m (normalizeResult m.result)

/-- C6: the fallback rules of resolveSeatResult apply in the stated
priority order.  First, a seat whose explicit result-like string field
normalizes to a result resolves to that result, whatever the boolean
flags say.  Second, null comes back only when no rule applies: the
result field does not normalize, the tie flag is not set, no boolean
win flag is readable, the match-level result is not a tie, the seat id
never meets the primary-player rule with a boolean match win flag, and
the winner-name rule finds either no usable names or differing names
without a match-level win. -/
theorem c6_resolve_priority (seat : JsRecord) (m : MatchRec) :
    (∀ r, normalizeResult (readSeatField seat resultFieldKeys) = some r →
        MatchHistory.resolveSeatResult seat m = some r)
    ∧ (MatchHistory.resolveSeatResult seat m = none →
        normalizeResult (readSeatField seat resultFieldKeys) = none
        ∧ readSeatBool seat tieFlagKeys ≠ some true
        ∧ readSeatBool seat winFlagKeys = none
        ∧ normalizeResult m.result ≠ some ResultType.tie
        ∧ (∀ sid, getSeatPlayerId seat = some sid → m.playerID = some sid →
            m.playerWin = none)
        ∧ (∀ sn wn, readSeatField seat seatNameKeys = some sn →
            m.winnerName = some wn → wn ≠ "" →
            asciiLower (trimJs sn) ≠ asciiLower (trimJs wn)
            ∧ normalizeResult m.result ≠ some ResultType.win)) := by
  have hrule6 : ∀ mr, MatchHistory.seatNameRule seat m mr = none →
      ∀ sn wn, readSeatField seat seatNameKeys = some sn →
        m.winnerName = some wn → wn ≠ "" →
        asciiLower (trimJs sn) ≠ asciiLower (trimJs wn)
        ∧ mr ≠ some ResultType.win := by
    intro mr h sn wn hsn hwn hne
    simp only [MatchHistory.seatNameRule, hsn, hwn] at h
    rw [if_neg hne] at h
    by_cases heq : asciiLower (trimJs sn) = asciiLower (trimJs wn)
    · rw [if_pos heq] at h
      exact Option.noConfusion h
    · rw [if_neg heq] at h
      refine ⟨heq, ?_⟩
      intro hmr
      rw [if_pos hmr] at h
      exact Option.noConfusion h
  constructor
  · intro r h
    rw [MatchHistory.resolveSeatResult, h]
  · intro h
    rw [MatchHistory.resolveSeatResult] at h
    cases hd : normalizeResult (readSeatField seat resultFieldKeys) with
    | some r =>
      simp only [hd] at h
      exact Option.noConfusion h
    | none =>
      simp only [hd] at h
      by_cases ht : readSeatBool seat tieFlagKeys = some true
      · rw [if_pos ht] at h
        exact Option.noConfusion h
      · rw [if_neg ht] at h
        cases hw : readSeatBool seat winFlagKeys with
        | some b =>
          simp only [hw] at h
          exact Option.noConfusion h
        | none =>
          simp only [hw] at h
          by_cases hmt : normalizeResult m.result = some ResultType.tie
          · rw [if_pos hmt] at h
            exact Option.noConfusion h
          · rw [if_neg hmt] at h
            refine ⟨rfl, ht, rfl, hmt, ?_, ?_⟩
            · intro sid hsid hpid
              cases hpw : m.playerWin with
              | none => rfl
              | some b =>
                simp only [hsid, hpid, hpw] at h
                simp at h
            · cases hsid : getSeatPlayerId seat with
              | none =>
                simp only [hsid] at h
                exact hrule6 (normalizeResult m.result) h
              | some sid =>
                cases hpid : m.playerID with
                | none =>
                  simp only [hsid, hpid] at h
                  exact hrule6 (normalizeResult m.result) h
                | some pid =>
                  cases hpw : m.playerWin with
                  | none =>
                    simp only [hsid, hpid, hpw] at h
                    exact hrule6 (normalizeResult m.result) h
                  | some b =>
                    simp only [hsid, hpid, hpw] at h
                    by_cases heq : sid = pid
                    · rw [if_pos heq] at h
                      exact Option.noConfusion h
                    · rw [if_neg heq] at h
                      exact hrule6 (normalizeResult m.result) h

/-- Witness for C6: a seat with an explicit result field WIN and a
conflicting boolean playerWin false resolves to win. -/
theorem c6_resolve_priority_witness :
    MatchHistory.resolveSeatResult
        [("result", JsValue.str ("WIN")), ("playerWin", JsValue.bool false)]
        { result := none, playerID := none, playerWin := none, winnerName := none }
      = some ResultType.win :=
  (c6_resolve_priority
      [("result", JsValue.str ("WIN")), ("playerWin", JsValue.bool false)]
      { result := none, playerID := none, playerWin := none, winnerName := none }).1
    ResultType.win rfl

/-- normalizeDeckKey from CreateGameComponent (decks.component.ts lines
615-620): trim, lower-case, and strip every character outside a-z and
0-9. -/
def CreateGame.normalizeDeckKey (value : String) : String :=
  ⟨(asciiLower (trimJs value)).data.filter (fun c => c.isLower || c.isDigit)⟩

/-- The match-record fields buildFavoriteDeckMaps consults. -/
structure CGMatch where
  playerID : Option ℚ := none
  deckName : Option String := none
  winnerName : Option String := none
  opponentOne : Option String := none
  opponentOneDeck : Option String := none
  opponentTwo : Option String := none
  opponentTwoDeck : Option String := none
  opponentThree : Option String := none
  opponentThreeDeck : Option String := none

/-- The bumpName closure of buildFavoriteDeckMaps (decks.component.ts
lines 542-554): skip falsy names; key the outer map by the trimmed
lower-cased player name and the inner map by the normalized deck key,
skipping empty keys; increment the count. -/
def CreateGame.bumpName (counts : List (String × List (String × ℕ)))
    (playerName deckName : Option String) : List (String × List (String × ℕ)) :=
  match playerName, deckName with
  | some pn, some dn =>
    if pn = "" ∨ dn = "" then counts
    else
      if asciiLower (trimJs pn) = "" ∨ CreateGame.normalizeDeckKey dn = "" then counts
      else
        alistSet counts (asciiLower (trimJs pn))
          (alistSet ((alistGet counts (asciiLower (trimJs pn))).getD [])
            (CreateGame.normalizeDeckKey dn)
            (((alistGet ((alistGet counts (asciiLower (trimJs pn))).getD [])
                (CreateGame.normalizeDeckKey dn)).getD 0) + 1))
  | _, _ => counts

/-- The bumpId closure of buildFavoriteDeckMaps (decks.component.ts
lines 556-567): skip an undefined player id or falsy deck name; key the
outer map by the numeric id and the inner map by the normalized deck
key, skipping an empty deck key; increment the count. -/
def CreateGame.bumpId (counts : List (ℚ × List (String × ℕ)))
    (playerId : Option ℚ) (deckName : Option String) : List (ℚ × List (String × ℕ)) :=
  match playerId, deckName with
  | some pid, some dn =>
    if dn = "" then counts
    else
      if CreateGame.normalizeDeckKey dn = "" then counts
      else
        alistSet counts pid
          (alistSet ((alistGet counts pid).getD [])
            (CreateGame.normalizeDeckKey dn)
            (((alistGet ((alistGet counts pid).getD [])
                (CreateGame.normalizeDeckKey dn)).getD 0) + 1))
  | _, _ => counts

/-- The favorite pick of buildFavoriteDeckMaps: walking the deck counts
of one identity in insertion order, keep the first deck to reach a
strictly higher count than every earlier one (ties favor the earlier
deck). -/
def CreateGame.bestDeck (deckMap : List (String × ℕ)) : String :=
  (deckMap.foldl
    (fun best kv => if (kv.2 : ℤ) > best.2 then (kv.1, (kv.2 : ℤ)) else best)
    ("", (-1 : ℤ))).1

/-- The favorites pass of buildFavoriteDeckMaps: per identity, record
the best deck when it is non-empty. -/
def CreateGame.favoritesOf {α : Type} [DecidableEq α]
    (counts : List (α × List (String × ℕ))) : List (α × String) :=
  counts.foldl
    (fun acc kv =>
      if CreateGame.bestDeck kv.2 = "" then acc
      else alistSet acc kv.1 (CreateGame.bestDeck kv.2))
    []

/-- buildFavoriteDeckMaps from CreateGameComponent (decks.component.ts
lines 538-613): one pass over the matches bumping the by-id counts for
the primary seat, the by-name counts for the winner name when the
primary player id is falsy, and the by-name counts for the three
opponent name/deck pairs; then one favorites pass per map. -/
def CreateGame.buildFavoriteDeckMaps (ms : List CGMatch) :
    List (ℚ × String) × List (String × String) :=
  let counts := ms.foldl
    (fun acc m =>
      let cid := CreateGame.bumpId acc.1 m.playerID m.deckName
      let cnm :=
        if m.playerID = none ∨ m.playerID = some 0 then
          CreateGame.bumpName acc.2 m.winnerName m.deckName
        else acc.2
      let cnm := CreateGame.bumpName cnm m.opponentOne m.opponentOneDeck
      let cnm := CreateGame.bumpName cnm m.opponentTwo m.opponentTwoDeck
      let cnm := CreateGame.bumpName cnm m.opponentThree m.opponentThreeDeck
      (cid, cnm))
    ([], [])
  (CreateGame.favoritesOf counts.1, CreateGame.favoritesOf counts.2)

/-- C4 counterexample: for player A with decks Mono Red, Mono Red,
Izzet, the by-name favorite map at the lower-cased key a holds the
normalized deck key monored, not the recorded deck name Mono Red. -/
theorem c4_counterexample :
    alistGet (CreateGame.buildFavoriteDeckMaps
        [ { deckName := some ("Mono Red"), winnerName := some ("A") },
          { deckName := some ("Mono Red"), winnerName := some ("A") },
          { deckName := some ("Izzet"), winnerName := some ("A") } ]).2 ("a")
      ≠ some ("Mono Red")
    ∧ alistGet (CreateGame.buildFavoriteDeckMaps
        [ { deckName := some ("Mono Red"), winnerName := some ("A") },
          { deckName := some ("Mono Red"), winnerName := some ("A") },
          { deckName := some ("Izzet"), winnerName := some ("A") } ]).2 ("a")
      = some ("monored") := by
  refine ⟨?_, rfl⟩
  intro h
  rw [show alistGet (CreateGame.buildFavoriteDeckMaps
      [ { deckName := some ("Mono Red"), winnerName := some ("A") },
        { deckName := some ("Mono Red"), winnerName := some ("A") },
        { deckName := some ("Izzet"), winnerName := some ("A") } ]).2 ("a")
      = some ("monored") from rfl] at h
  simp at h

/-- C4 (amended): the by-name favorite map stores normalized deck keys:
for the same match list, the entry at key a is exactly
normalizeDeckKey applied to Mono Red, which is the string monored. -/
theorem c4_favorite_by_name_normalized :
    alistGet (CreateGame.buildFavoriteDeckMaps
        [ { deckName := some ("Mono Red"), winnerName := some ("A") },
          { deckName := some ("Mono Red"), winnerName := some ("A") },
          { deckName := some ("Izzet"), winnerName := some ("A") } ]).2 ("a")
      = some (CreateGame.normalizeDeckKey ("Mono Red"))
    ∧ CreateGame.normalizeDeckKey ("Mono Red") = "monored" :=
  ⟨rfl, rfl⟩
